import Mathlib

/-!
Shallow embedding of the sales-prompt-creator client
(src/components/prompt-form.tsx, src/components/prompt-history.tsx, and the
container component).  Pure functions model the form schema, the
localStorage persistence (load effect, debounced save, reset), the model
list fetcher, the history pagination, and the container submit/restore
handlers.  Machine state (React component state, localStorage) is passed
explicitly; fallible steps (JSON.parse, network calls) return Except.
-/

namespace SalesPrompt

/-- `FormValues` from prompt-form.tsx: the flat record of string fields
inferred from `formSchema`.  `additionalInfo` is optional in the zod
schema; the form initialises it to `""`, so it is carried as a plain
string here. -/
structure FormValues where
  apiKey : String
  model : String
  aiName : String
  companyName : String
  industry : String
  targetAudience : String
  challenges : String
  product : String
  objective : String
  objections : String
  additionalInfo : String
deriving Repr, DecidableEq

/-- The `defaultValues` passed to `useForm` in prompt-form.tsx. -/
def defaultValues : FormValues :=
  { apiKey := ""
    model := "gpt-4o-mini"
    aiName := ""
    companyName := ""
    industry := ""
    targetAudience := ""
    challenges := ""
    product := ""
    objective := ""
    objections := ""
    additionalInfo := "" }

/-- `dataToSave` inside `debouncedSave`: the persisted snapshot, every
field of `FormValues` except the credential (`apiKey`). -/
structure SavedData where
  model : String
  aiName : String
  companyName : String
  industry : String
  targetAudience : String
  challenges : String
  product : String
  objective : String
  objections : String
  additionalInfo : String
deriving Repr, DecidableEq

/-- The string stored under the form-data key, as seen by `JSON.parse`:
either the JSON encoding of a `SavedData` snapshot (what `debouncedSave`
writes) or some other string that does not parse. -/
inductive StoredForm where
  | snap (d : SavedData)
  | malformed (raw : String)
deriving Repr, DecidableEq

/-- `JSON.parse` on the stored form-data string: succeeds exactly on
well-formed snapshots, throws (modelled as `Except.error`) otherwise. -/
def jsonParse : StoredForm → Except String SavedData
  | .snap d => .ok d
  | .malformed raw => .error raw

/-- The localStorage adapter restricted to the three keys the code uses:
`"sales-prompt-form"` (form-data), `"openai-api-key"` (credential) and
`"sales-prompt-result"` (generated result).  `none` models an absent key. -/
structure Store where
  formData : Option StoredForm
  openaiApiKey : Option String
  savedResult : Option String
deriving Repr, DecidableEq

/-- The `Object.entries(parsedData).forEach` loop of the load effect:
every key of the parsed snapshot except `"apiKey"` is written into the
form (the snapshot never contains `"apiKey"`, so all its fields are
applied). -/
def applySaved (v : FormValues) (d : SavedData) : FormValues :=
  { v with
    model := d.model
    aiName := d.aiName
    companyName := d.companyName
    industry := d.industry
    targetAudience := d.targetAudience
    challenges := d.challenges
    product := d.product
    objective := d.objective
    objections := d.objections
    additionalInfo := d.additionalInfo }

/-- The load `useEffect` of `PromptForm`: reads the credential key and the
form-data key; if form-data is present it is fed to `JSON.parse` with no
surrounding try/catch, so a parse failure propagates out of the effect
(modelled as `Except.error`), skipping both the credential restore and
`setMounted(true)`.  On success the snapshot fields are applied, then the
credential (only when present and non-empty, mirroring JS truthiness of
`if (savedApiKey)`), and the returned flag is `mounted = true`. -/
def loadForm (store : Store) (v0 : FormValues) : Except String (FormValues × Bool) := do
  let afterData ← match store.formData with
    | some sf => (jsonParse sf).map (applySaved v0)
    | none => pure v0
  let afterKey := match store.openaiApiKey with
    | some k => if k ≠ "" then { afterData with apiKey := k } else afterData
    | none => afterData
  pure (afterKey, true)

/-- The body of the debounced save timer in `debouncedSave`: projects the
current form values to the persisted snapshot. -/
def dataToSave (v : FormValues) : SavedData :=
  { model := v.model
    aiName := v.aiName
    companyName := v.companyName
    industry := v.industry
    targetAudience := v.targetAudience
    challenges := v.challenges
    product := v.product
    objective := v.objective
    objections := v.objections
    additionalInfo := v.additionalInfo }

/-- One firing of the `debouncedSave` timer: writes the snapshot under the
form-data key, and writes the credential key only when `formData.apiKey`
is truthy (non-empty). -/
def saveStep (v : FormValues) (s : Store) : Store :=
  let s1 := { s with formData := some (.snap (dataToSave v)) }
  if v.apiKey ≠ "" then { s1 with openaiApiKey := some v.apiKey } else s1

/-- A sequence of debounce-elapsed saves, oldest first. -/
def saveRun (vs : List FormValues) (s : Store) : Store :=
  vs.foldl (fun acc v => saveStep v acc) s

/-- `resetForm` in prompt-form.tsx: keeps the current credential, resets
every other field to its `defaultValues` entry (empty strings, and the
default model identifier for `model`), and removes the form-data key from
the store; the credential key is not touched. -/
def resetForm (v : FormValues) (s : Store) : FormValues × Store :=
  ({ defaultValues with apiKey := v.apiKey }, { s with formData := none })

/-- The zod `formSchema` check: every field carries `.min(1)` except
`additionalInfo`, which is `.optional()`.  `zodResolver` accepts the
values exactly when every required field is non-empty. -/
def schemaValidates (v : FormValues) : Bool :=
  v.apiKey ≠ "" && v.model ≠ "" && v.aiName ≠ "" && v.companyName ≠ "" &&
  v.industry ≠ "" && v.targetAudience ≠ "" && v.challenges ≠ "" &&
  v.product ≠ "" && v.objective ≠ "" && v.objections ≠ ""

/-- One click of the submit button: `form.handleSubmit(handleSubmit)`
runs the resolver and calls `onSubmit(values)` (the generator) exactly
once on success, zero times on a validation failure.  The result is the
number of generator invocations this click causes. -/
def submitClick (v : FormValues) : Nat :=
  if schemaValidates v then 1 else 0

/-- The two hard-coded default model identifiers of `fetchModels`, in the
order the code lists them. -/
def defaultModels : List String := ["gpt-4o-mini", "gpt-4o"]

/-- One run of `fetchModels` against the current `models` state.  The
argument `outcome` is the external API call: `.ok ids` is a completed
`openai.models.list()` with the returned identifiers, `.error` any thrown
failure (network error, invalid credential).  On success the state
becomes the two defaults followed by the API identifiers filtered against
the defaults; on failure the catch block only logs and toasts, leaving
`models` unchanged.  The returned flag records whether the destructive
warning toast was shown. -/
def fetchModelsStep (models : List String) (outcome : Except String (List String)) :
    List String × Bool :=
  match outcome with
  | .ok ids => (defaultModels ++ ids.filter (fun id => !defaultModels.contains id), false)
  | .error _ => (models, true)

/-- `PromptHistoryItem` from prompt-history.tsx. -/
structure HistoryItem where
  id : String
  content : String
  timestamp : Nat
  formData : FormValues
deriving Repr, DecidableEq

/-- `ITEMS_PER_PAGE` in prompt-history.tsx. -/
def ITEMS_PER_PAGE : Nat := 10

/-- `totalPages = Math.ceil(history.length / ITEMS_PER_PAGE)`. -/
def totalPages (history : List HistoryItem) : Nat :=
  (history.length + ITEMS_PER_PAGE - 1) / ITEMS_PER_PAGE

/-- `currentItems = history.slice(startIndex, endIndex)` with
`startIndex = currentPage * ITEMS_PER_PAGE` and
`endIndex = startIndex + ITEMS_PER_PAGE`. -/
def pageItems (history : List HistoryItem) (page : Nat) : List HistoryItem :=
  (history.drop (page * ITEMS_PER_PAGE)).take ITEMS_PER_PAGE

/-- The Previous button: `setCurrentPage(p => Math.max(0, p - 1))`
(truncated subtraction on `Nat` clamps at 0 exactly as `Math.max`). -/
def prevPage (page : Nat) : Nat := page - 1

/-- The Next button: `setCurrentPage(p => Math.min(totalPages - 1, p + 1))`. -/
def nextPage (history : List HistoryItem) (page : Nat) : Nat :=
  min (totalPages history - 1) (page + 1)

/-- `disabled={currentPage === 0}` on the Previous button. -/
def prevDisabled (page : Nat) : Bool := page == 0

/-- `disabled={currentPage === totalPages - 1}` on the Next button. -/
def nextDisabled (history : List HistoryItem) (page : Nat) : Bool :=
  page == totalPages history - 1

/-- The container component's state (`PromptContainer`): the loading
flag, the displayed result, and the form data most recently submitted or
restored. -/
structure ContainerState where
  isLoading : Bool
  result : Option String
  currentFormData : Option FormValues
deriving Repr, DecidableEq

/-- `handleSubmit` in the container: sets the loading flag and the
current form data, awaits `generateSalesPrompt(values)` (the `outcome`
argument), stores the prompt on success, and on failure only logs the
error (returned flag) — `setResult` is never called in the catch branch —
then clears the loading flag in `finally`. -/
def containerSubmit (st : ContainerState) (values : FormValues)
    (outcome : Except String String) : ContainerState × Bool :=
  let st1 := { st with isLoading := true, currentFormData := some values }
  match outcome with
  | .ok prompt => ({ st1 with result := some prompt, isLoading := false }, false)
  | .error _ => ({ st1 with isLoading := false }, true)

/-- The restore action: the `RestoreButton` in prompt-history.tsx calls
`onRestore(item.formData, item.content)`, and the container handlers
`handleRestoreFormData` / `handleRestorePrompt` set the current form data
and the displayed result to exactly those values.  The history list is
carried through untouched: no handler on the restore path adds, removes
or rewrites an item. -/
def restoreClick (item : HistoryItem) (st : ContainerState)
    (history : List HistoryItem) : ContainerState × List HistoryItem :=
  ({ st with currentFormData := some item.formData, result := some item.content }, history)

/-- State of the API-key watch effect's debounce: the key captured by the
pending `setTimeout`, if one is armed. -/
structure FetchDebounce where
  pending : Option String
deriving Repr, DecidableEq

/-- Events driving the API-key watch effect: a credential edit re-runs
the effect, and a quiescent 500 ms interval fires the pending timer. -/
inductive KeyEvent where
  | change (k : String)
  | elapse
deriving Repr, DecidableEq

/-- One step of the watch effect (prompt-form.tsx lines 132–140).  On a
credential change the effect cleanup `clearTimeout` cancels any pending
timer, and a new timer is armed only when `apiKey.length >= 30`; nothing
fires.  On an elapse, an armed timer fires `fetchModels` with its
captured key.  The second component is the key of the fetch issued by
this step, if any. -/
def debounceStep (st : FetchDebounce) : KeyEvent → FetchDebounce × Option String
  | .change k =>
      ({ pending := if 30 ≤ k.length then some k else none }, none)
  | .elapse =>
      match st.pending with
      | some k => ({ pending := none }, some k)
      | none => (st, none)

/-- Run a trace of events from a debounce state, collecting every fetch
that fires, oldest first. -/
def debounceRun (st : FetchDebounce) : List KeyEvent → FetchDebounce × List String
  | [] => (st, [])
  | e :: es =>
      let (st1, fired) := debounceStep st e
      let (st2, fires) := debounceRun st1 es
      (st2, (fired.toList) ++ fires)

/-- The credential value the store ends up holding after a sequence of
debounced saves: the last non-empty `apiKey` among the saved snapshots,
or the prior stored value when every saved `apiKey` was empty. -/
def lastNonEmptyKey (vs : List FormValues) (prior : Option String) : Option String :=
  vs.foldl (fun acc v => if v.apiKey ≠ "" then some v.apiKey else acc) prior

/-- A fully filled-in form, used as a concrete fixture. -/
def goodValues : FormValues :=
  { apiKey := "sk-test"
    model := "gpt-4o-mini"
    aiName := "Sarah"
    companyName := "TechCorp Solutions"
    industry := "SaaS"
    targetAudience := "Small business owners"
    challenges := "Slow manual outreach"
    product := "AI calling assistant"
    objective := "Schedule a demo"
    objections := "Too expensive"
    additionalInfo := "" }

/-- The fixture with the credential field cleared. -/
def emptyKeyValues : FormValues := { goodValues with apiKey := "" }

/-- A store with all three keys absent. -/
def emptyStore : Store := { formData := none, openaiApiKey := none, savedResult := none }

/-- C1: the claim says a non-parseable form-data string must not crash the
load step — it should skip restoration, still apply the stored credential
and mount.  The code has no try/catch around `JSON.parse`, so the load
effect throws on malformed data: the credential is never applied and the
component never mounts.  This theorem evaluates the embedded load step at
the failing input, exhibiting the crash. -/
theorem C1_load_crashes_on_malformed :
    loadForm
      { formData := some (.malformed "not json"),
        openaiApiKey := some "sk-test",
        savedResult := none }
      defaultValues = .error "not json" := rfl

/-- C2: one submit click invokes the generator exactly once when the
credential, the model and the eight required business-context fields are
all non-empty, and invokes it zero times when any of them is empty
(`additionalInfo` is not required). -/
theorem C2_submit_gated_by_required_fields (v : FormValues) :
    ((v.apiKey ≠ "" ∧ v.model ≠ "" ∧ v.aiName ≠ "" ∧ v.companyName ≠ "" ∧
      v.industry ≠ "" ∧ v.targetAudience ≠ "" ∧ v.challenges ≠ "" ∧
      v.product ≠ "" ∧ v.objective ≠ "" ∧ v.objections ≠ "") →
        submitClick v = 1) ∧
    ((v.apiKey = "" ∨ v.model = "" ∨ v.aiName = "" ∨ v.companyName = "" ∨
      v.industry = "" ∨ v.targetAudience = "" ∨ v.challenges = "" ∨
      v.product = "" ∨ v.objective = "" ∨ v.objections = "") →
        submitClick v = 0) := by
  constructor
  · rintro ⟨h1, h2, h3, h4, h5, h6, h7, h8, h9, h10⟩
    simp [submitClick, schemaValidates, h1, h2, h3, h4, h5, h6, h7, h8, h9, h10]
  · intro h
    have hv : schemaValidates v = false := by
      rcases h with h | h | h | h | h | h | h | h | h | h <;>
        simp [schemaValidates, h]
    simp [submitClick, hv]

/-- Closed instance of C2 at a fully filled-in form. -/
theorem C2_submit_witness : submitClick goodValues = 1 :=
  (C2_submit_gated_by_required_fields goodValues).1 (by decide)

/-- C5: the reset operation keeps the current credential, returns every
other field to its initial default (empty strings; the model select
returns to the default identifier `"gpt-4o-mini"`), removes the persisted
form-data entry, and leaves the stored credential (and the stored result)
unchanged. -/
theorem C5_reset_clears_all_but_credential (v : FormValues) (s : Store) :
    resetForm v s =
      ({ apiKey := v.apiKey
         model := "gpt-4o-mini"
         aiName := ""
         companyName := ""
         industry := ""
         targetAudience := ""
         challenges := ""
         product := ""
         objective := ""
         objections := ""
         additionalInfo := "" },
       { formData := none
         openaiApiKey := s.openaiApiKey
         savedResult := s.savedResult }) := rfl

/-- C7: a failing generation call is caught and logged by the container,
the displayed result is left unchanged (no partial result), and the
loading flag ends up cleared. -/
theorem C7_generation_failure_state (st : ContainerState) (v : FormValues) (e : String) :
    (containerSubmit st v (.error e)).1.result = st.result ∧
    (containerSubmit st v (.error e)).1.isLoading = false ∧
    (containerSubmit st v (.error e)).2 = true :=
  ⟨rfl, rfl, rfl⟩

/-- C8: restoring a history item hands exactly the stored `formData` and
`content` to the form and the result display, and the history list is
unchanged. -/
theorem C8_restore_exact_and_frame (item : HistoryItem) (st : ContainerState)
    (history : List HistoryItem) :
    (restoreClick item st history).1.currentFormData = some item.formData ∧
    (restoreClick item st history).1.result = some item.content ∧
    (restoreClick item st history).2 = history :=
  ⟨rfl, rfl, rfl⟩

/-- C3 counterexample: after a successful fetch has extended the model
list, a subsequent failed fetch leaves that longer list in place — the
catch block only logs and toasts — so the resulting active list is not
the two-item default list the claim requires. -/
theorem C3_failed_fetch_counterexample :
    (fetchModelsStep
        (fetchModelsStep defaultModels (.ok ["o1-preview"])).1
        (.error "network error")).1 =
      ["gpt-4o-mini", "gpt-4o", "o1-preview"] ∧
    ["gpt-4o-mini", "gpt-4o", "o1-preview"] ≠ defaultModels := by
  constructor
  · rfl
  · decide

/-- C3 amended: a completed fetch produces the two default identifiers
first, followed by the API's identifiers deduplicated against the
defaults, without a warning; a failed fetch shows a non-fatal warning and
leaves the active model list unchanged (so it is exactly the two-item
default list whenever no fetch has yet succeeded). -/
theorem C3_fetch_models (models : List String) (outcome : Except String (List String)) :
    (∀ ids, outcome = .ok ids →
        (fetchModelsStep models outcome).1.take 2 = defaultModels ∧
        (fetchModelsStep models outcome).1.drop 2 =
          ids.filter (fun id => !defaultModels.contains id) ∧
        (fetchModelsStep models outcome).2 = false) ∧
    (∀ e, outcome = .error e →
        (fetchModelsStep models outcome).1 = models ∧
        (fetchModelsStep models outcome).2 = true) := by
  constructor
  · rintro ids rfl
    exact ⟨rfl, rfl, rfl⟩
  · rintro e rfl
    exact ⟨rfl, rfl⟩

/-- Closed instance of C3 at a concrete successful fetch. -/
theorem C3_fetch_models_witness :
    (fetchModelsStep defaultModels (.ok ["o1-preview", "gpt-4o"])).1.take 2 =
      defaultModels :=
  ((C3_fetch_models defaultModels (.ok ["o1-preview", "gpt-4o"])).1
    ["o1-preview", "gpt-4o"] rfl).1

/-- C4 counterexample: save a form whose credential field is empty into a
store already holding a credential; the debounced save skips the
credential write, so the reload restores the old stored credential, not
the (empty) credential that was written — the round-trip fails for the
credential. -/
theorem C4_roundtrip_counterexample :
    (loadForm
        (saveStep emptyKeyValues
          { formData := none, openaiApiKey := some "sk-old", savedResult := none })
        defaultValues).map (fun p => p.1.apiKey) = .ok "sk-old" ∧
    emptyKeyValues.apiKey ≠ "sk-old" := by
  constructor
  · rfl
  · decide

/-- C4 amended: writing the fields and letting the debounce elapse, then
re-running the load step against the same store, reproduces every
non-credential field; the credential is reproduced whenever it is
non-empty (an empty credential field is never saved, so the load yields
whatever credential the store already held). -/
theorem C4_persist_reload_roundtrip (v : FormValues) (s : Store) :
    ∃ loaded : FormValues,
      loadForm (saveStep v s) defaultValues = .ok (loaded, true) ∧
      dataToSave loaded = dataToSave v ∧
      (v.apiKey ≠ "" → loaded.apiKey = v.apiKey) := by
  by_cases hk : v.apiKey = ""
  · cases hs : s.openaiApiKey with
    | none =>
        refine ⟨applySaved defaultValues (dataToSave v), ?_, ?_, ?_⟩
        · simp [saveStep, loadForm, jsonParse, hk, hs]; rfl
        · simp [applySaved, dataToSave]
        · intro h; exact absurd hk h
    | some k =>
        by_cases hkk : k = ""
        · refine ⟨applySaved defaultValues (dataToSave v), ?_, ?_, ?_⟩
          · simp [saveStep, loadForm, jsonParse, hk, hs, hkk]; rfl
          · simp [applySaved, dataToSave]
          · intro h; exact absurd hk h
        · refine ⟨{ applySaved defaultValues (dataToSave v) with apiKey := k }, ?_, ?_, ?_⟩
          · simp [saveStep, loadForm, jsonParse, hk, hs, hkk]; rfl
          · simp [applySaved, dataToSave]
          · intro h; exact absurd hk h
  · refine ⟨{ applySaved defaultValues (dataToSave v) with apiKey := v.apiKey }, ?_, ?_, ?_⟩
    · simp [saveStep, loadForm, jsonParse, hk]; rfl
    · simp [applySaved, dataToSave]
    · intro _; rfl

/-- Closed instance of C4 at a fully filled-in form over an empty store. -/
theorem C4_roundtrip_witness :
    ∃ loaded : FormValues,
      loadForm (saveStep goodValues emptyStore) defaultValues = .ok (loaded, true) ∧
      dataToSave loaded = dataToSave goodValues ∧ loaded.apiKey = "sk-test" := by
  obtain ⟨loaded, h1, h2, h3⟩ := C4_persist_reload_roundtrip goodValues emptyStore
  exact ⟨loaded, h1, h2, h3 (by decide)⟩

/-- A concrete history item, indexed so a page's contents are visible. -/
def sampleItem (n : Nat) : HistoryItem :=
  { id := toString n
    content := "Generated prompt"
    timestamp := n
    formData := goodValues }

/-- A 25-item history fixture. -/
def sampleHistory : List HistoryItem := (List.range 25).map sampleItem

/-- C6: with 25 items and page size 10 there are 3 pages; page 0 shows
items 0–9, page 2 shows items 20–24 (5 items), every page `p` shows the
items at indices `p*10 + j` in insertion order, and navigation is clamped
and disabled at both ends (Next cannot pass the last page, Previous
cannot pass page 0). -/
theorem C6_pagination (h : List HistoryItem) (hl : h.length = 25) :
    totalPages h = 3 ∧
    pageItems h 0 = h.take 10 ∧
    pageItems h 2 = h.drop 20 ∧
    (pageItems h 2).length = 5 ∧
    (∀ p j, j < (pageItems h p).length →
        (pageItems h p).get? j = h.get? (p * ITEMS_PER_PAGE + j)) ∧
    nextPage h 2 = 2 ∧ nextDisabled h 2 = true ∧
    prevPage 0 = 0 ∧ prevDisabled 0 = true := by
  refine ⟨?_, ?_, ?_, ?_, ?_, ?_, ?_, rfl, rfl⟩
  · simp [totalPages, ITEMS_PER_PAGE, hl]
  · simp [pageItems, ITEMS_PER_PAGE]
  · have hlen : (h.drop 20).length ≤ 10 := by simp [hl]
    simp [pageItems, ITEMS_PER_PAGE, List.take_of_length_le hlen]
  · have hlen : (h.drop 20).length ≤ 10 := by simp [hl]
    simp [pageItems, ITEMS_PER_PAGE, List.take_of_length_le hlen, hl]
  · intro p j hj
    have hj10 : j < 10 := lt_of_lt_of_le hj (by simp [pageItems, ITEMS_PER_PAGE])
    simp [pageItems, ITEMS_PER_PAGE, List.getElem?_take_of_lt, hj10, List.getElem?_drop]
  · simp [nextPage, totalPages, ITEMS_PER_PAGE, hl]
  · simp [nextDisabled, totalPages, ITEMS_PER_PAGE, hl]

/-- Closed instance of C6 at the 25-item fixture. -/
theorem C6_pagination_witness :
    sampleHistory.length = 25 ∧ totalPages sampleHistory = 3 ∧
    pageItems sampleHistory 2 = sampleHistory.drop 20 := by
  have hl : sampleHistory.length = 25 := by simp [sampleHistory]
  obtain ⟨h1, _, h3, _⟩ := C6_pagination sampleHistory hl
  exact ⟨hl, h1, h3⟩

/-- Every key held by a pending fetch timer reached the 30-character
threshold when it was armed, so every fetch the trace fires carries such
a key. -/
lemma debounceRun_fires_long (es : List KeyEvent) :
    ∀ st : FetchDebounce, (∀ k, st.pending = some k → 30 ≤ k.length) →
      ∀ k, k ∈ (debounceRun st es).2 → 30 ≤ k.length := by
  induction es with
  | nil =>
      intro st _ k hk
      simp [debounceRun] at hk
  | cons e es ih =>
      intro st hst k hk
      cases e with
      | change k1 =>
          simp only [debounceRun, debounceStep, Option.toList_none, List.nil_append] at hk
          refine ih _ ?_ k hk
          intro k2 h2
          by_cases h30 : 30 ≤ k1.length
          · simp [h30] at h2
            subst h2
            exact h30
          · simp [h30] at h2
      | elapse =>
          obtain ⟨p⟩ := st
          cases p with
          | none =>
              simp only [debounceRun, debounceStep, Option.toList_none,
                List.nil_append] at hk
              exact ih _ hst k hk
          | some k1 =>
              simp only [debounceRun, debounceStep, Option.toList_some,
                List.cons_append, List.nil_append, List.mem_cons] at hk
              rcases hk with rfl | hk
              · exact hst k rfl
              · exact ih _ (by intro k2 h2; simp at h2) k hk

/-- C9: starting from no pending timer, every fetch a trace of credential
edits and timer expiries fires carries a key of length at least 30 (the
fetch is never issued below the threshold, and only after an elapse with
no further change); and each credential change discards the previous
pending timer wholesale, arming a timer for the new key alone when it is
long enough (last-write-wins) while firing nothing itself. -/
theorem C9_fetch_debounce_gating :
    (∀ es k, k ∈ (debounceRun { pending := none } es).2 → 30 ≤ k.length) ∧
    (∀ (st : FetchDebounce) (k : String),
        debounceStep st (.change k) =
          ({ pending := if 30 ≤ k.length then some k else none }, none)) := by
  constructor
  · intro es k hk
    exact debounceRun_fires_long es { pending := none } (by intro k2 h2; simp at h2) k hk
  · intro st k
    rfl

/-- A 30-character credential fixture. -/
def key30 : String := "sk-000000000000000000000000000"

/-- Closed instance of C9: a trace that edits the credential to a
30-character key and lets the debounce elapse fires a fetch, whose key is
certified long by the theorem. -/
theorem C9_fetch_debounce_witness :
    key30 ∈ (debounceRun { pending := none } [KeyEvent.change key30, KeyEvent.elapse]).2 ∧
    30 ≤ key30.length :=
  ⟨by decide,
   C9_fetch_debounce_gating.1 [KeyEvent.change key30, KeyEvent.elapse] key30 (by decide)⟩

/-- The debounced save always (re)writes the form-data snapshot. -/
lemma saveStep_formData (v : FormValues) (s : Store) :
    (saveStep v s).formData = some (.snap (dataToSave v)) := by
  by_cases h : v.apiKey = "" <;> simp [saveStep, h]

/-- The debounced save writes the credential key only when the credential
field is non-empty. -/
lemma saveStep_openaiApiKey (v : FormValues) (s : Store) :
    (saveStep v s).openaiApiKey =
      if v.apiKey ≠ "" then some v.apiKey else s.openaiApiKey := by
  by_cases h : v.apiKey = "" <;> simp [saveStep, h]

/-- Across a whole run of saves the stored credential is the last
non-empty credential field saved, falling back to the prior contents. -/
lemma saveRun_openaiApiKey (vs : List FormValues) :
    ∀ s : Store, (saveRun vs s).openaiApiKey = lastNonEmptyKey vs s.openaiApiKey := by
  induction vs with
  | nil => intro s; rfl
  | cons v vs ih =>
      intro s
      show (saveRun vs (saveStep v s)).openaiApiKey = _
      rw [ih (saveStep v s), saveStep_openaiApiKey]
      rfl

/-- A non-empty run of saves leaves a well-formed snapshot under the
form-data key. -/
lemma saveRun_formData (vs : List FormValues) :
    ∀ (v : FormValues) (s : Store),
      ∃ d, (saveRun (v :: vs) s).formData = some (.snap d) := by
  induction vs with
  | nil => intro v s; exact ⟨dataToSave v, saveStep_formData v s⟩
  | cons v1 vs ih =>
      intro v s
      show ∃ d, (saveRun (v1 :: vs) (saveStep v s)).formData = _
      exact ih v1 (saveStep v s)

/-- C10: over any non-empty sequence of debounced saves, the store ends
up holding the last non-empty credential saved (an emptied credential
field never removes or overwrites it), and whenever the stored credential
is non-empty the load step restores exactly it. -/
theorem C10_credential_never_clobbered (v : FormValues) (vs : List FormValues) (s : Store) :
    (saveRun (v :: vs) s).openaiApiKey = lastNonEmptyKey (v :: vs) s.openaiApiKey ∧
    (∀ c, (saveRun (v :: vs) s).openaiApiKey = some c → c ≠ "" →
      ∃ loaded, loadForm (saveRun (v :: vs) s) defaultValues = .ok (loaded, true) ∧
        loaded.apiKey = c) := by
  refine ⟨saveRun_openaiApiKey _ _, ?_⟩
  intro c hc hne
  obtain ⟨d, hd⟩ := saveRun_formData vs v s
  refine ⟨{ applySaved defaultValues d with apiKey := c }, ?_, rfl⟩
  simp [loadForm, hd, hc, jsonParse, hne]
  rfl

/-- Closed instance of C10: the credential saved first survives a later
save with the credential field emptied and is restored by the load. -/
theorem C10_credential_witness :
    ∃ loaded,
      loadForm (saveRun [goodValues, emptyKeyValues] emptyStore) defaultValues =
        .ok (loaded, true) ∧ loaded.apiKey = "sk-test" :=
  (C10_credential_never_clobbered goodValues [emptyKeyValues] emptyStore).2
    "sk-test" (by decide) (by decide)

end SalesPrompt
